import Mathlib

/-!
Verification development for the Script Sentinel worker.

This file gives a shallow embedding of the classification resolution chain
(`src/worker/analyzer.ts`), the batch orchestrator (`src/worker/index.ts`,
`/api/v1/analyze` route), the chat adapter (`src/worker/chat.ts`) and the
durable-object session store (`ScriptAnalyzer`), and proves or refutes the
frozen behavioural claims about them.

Modelling conventions:
* JavaScript strings are Lean `String`s; all inputs of interest are ASCII so
  UTF-16 length and character counts coincide.
* The platform URL constructor (`new URL(u).hostname`) is modelled by
  `parseHostname`, which accepts `scheme://host...` URLs and fails (models a
  thrown `TypeError`) otherwise.
* The language-model oracle is external.  Its classification call is
  abstracted as a function from the script URL and domain (the data the
  prompt is built from) to either a thrown error or a response text.
  The platform `JSON.parse` is abstracted as a function
  `String → Option OracleJson`; theorems quantify over it.
* Thrown exceptions are modelled with `Except Unit`.
-/

/-- Risk tier enumeration from `src/types/index.ts` (`riskLevel`). -/
inductive RiskLevel where
  | LOW
  | MEDIUM
  | HIGH
  | CRITICAL
deriving DecidableEq, Repr

/-- Recommendation enumeration from `src/types/index.ts` (`recommendation`). -/
inductive Recommendation where
  | ALLOW
  | MONITOR
  | BLOCK
deriving DecidableEq, Repr

/-- Mirror of `ScriptInfo` from `src/types/index.ts`. -/
structure ScriptInfo where
  url : String
  timestamp : Nat
deriving DecidableEq, Repr

/-- Mirror of `ScriptAnalysis` from `src/types/index.ts`. -/
structure ScriptAnalysis where
  scriptUrl : String
  scriptName : String
  purpose : String
  dataCollected : List String
  destinations : List String
  riskLevel : RiskLevel
  reasoning : String
  recommendation : Recommendation
  userFriendlyExplanation : String
deriving DecidableEq, Repr

/-- Mirror of `AnalysisResult` from `src/types/index.ts`; `analyses` and
`summary` are optional there. -/
structure AnalysisResult where
  success : Bool
  url : String
  totalScripts : Nat
  thirdPartyScripts : Nat
  scripts : List ScriptInfo
  analyses : Option (List ScriptAnalysis)
  summary : Option String
deriving DecidableEq, Repr

/-- Boolean test that `pat` is an initial segment of `l`. -/
def leadsList : List Char → List Char → Bool
  | [], _ => true
  | _ :: _, [] => false
  | d :: ds, c :: cs => d = c && leadsList ds cs

/-- Boolean test that `sub` occurs contiguously inside `l`. -/
def occursIn (sub : List Char) : List Char → Bool
  | [] => sub.isEmpty
  | c :: cs => leadsList sub (c :: cs) || occursIn sub cs

/-- JavaScript `String.prototype.includes`: substring containment. -/
def jsIncludes (s pat : String) : Bool :=
  occursIn pat.toList s.toList

/-- JavaScript `s.endsWith(suffix)`. -/
def jsEndsWith (s suffix : String) : Bool :=
  leadsList suffix.toList.reverse s.toList.reverse

/-- Characters that terminate the host component of a URL. -/
def hostTerminator (c : Char) : Bool :=
  c = '/' || c = ':' || c = '?' || c = '#'

/-- Split a character list at the first occurrence of `://`, returning the
part before it and the part after it. -/
def breakAtScheme : List Char → Option (List Char × List Char)
  | [] => none
  | c :: cs =>
    if leadsList [':', '/', '/'] (c :: cs) then some ([], cs.drop 2)
    else
      match breakAtScheme cs with
      | none => none
      | some (a, b) => some (c :: a, b)

/-- Model of the platform URL constructor applied as `new URL(u).hostname`:
requires a nonempty alphabetic scheme followed by `://` and a nonempty host,
returning the host component; returns `none` (a thrown `TypeError`) for
anything else. -/
def parseHostname (url : String) : Option String :=
  match breakAtScheme url.toList with
  | none => none
  | some (schemeChars, restChars) =>
    let host := restChars.takeWhile (fun c => !hostTerminator c)
    if !schemeChars.isEmpty && schemeChars.all Char.isAlpha && !host.isEmpty then
      some (String.mk host)
    else
      none

/-- JavaScript `domain.replace(/^www\./, "")`: strip one leading `www.`. -/
def stripWww (h : String) : String :=
  if leadsList "www.".toList h.toList then String.mk (h.toList.drop 4) else h

/-- Mirror of `isFirstParty` from `src/worker/analyzer.ts` (lines 4-19): the
`try`/`catch` around `new URL` makes an unparsable script URL yield `false`. -/
def isFirstParty (scriptUrl pageDomain : String) : Bool :=
  match parseHostname scriptUrl with
  | none => false
  | some scriptDomain =>
    let pageBase := stripWww pageDomain
    let scriptBase := stripWww scriptDomain
    scriptBase == pageBase
      || jsEndsWith scriptBase ("." ++ pageBase)
      || jsEndsWith pageBase ("." ++ scriptBase)

/-- Mirror of `frameworkPatterns` from `src/worker/analyzer.ts` (lines 23-31). -/
def frameworkPatterns : List String :=
  ["/_next/static/", "/_nuxt/", "/webpack", "/react", "/vue", "chunk", "runtime"]

/-- Mirror of `isKnownFramework` from `src/worker/analyzer.ts` (lines 22-34). -/
def isKnownFramework (scriptUrl : String) : Bool :=
  frameworkPatterns.any (fun pattern => jsIncludes scriptUrl pattern)

/-- Mirror of `Partial<ScriptAnalysis>` as used by the `KNOWN_SERVICES`
registry values; every field may be absent. -/
structure ServiceTemplate where
  scriptName : Option String
  purpose : Option String
  dataCollected : Option (List String)
  riskLevel : Option RiskLevel
  recommendation : Option Recommendation
  reasoning : Option String
deriving DecidableEq, Repr

/-- Mirror of the `KNOWN_SERVICES` table from `src/worker/analyzer.ts`
(lines 37-140), in object-literal insertion order, which is the order
`Object.entries` enumerates these (non-numeric) keys. -/
def KNOWN_SERVICES : List (String × ServiceTemplate) :=
  [ ("razorpay.com",
     { scriptName := some "Razorpay Payment Gateway"
       purpose := some "Secure payment processing for Indian market"
       dataCollected := some ["payment details", "transaction data", "contact info"]
       riskLevel := some RiskLevel.LOW
       recommendation := some Recommendation.ALLOW
       reasoning := some "Legitimate payment gateway used by thousands of businesses" }),
    ("stripe.com",
     { scriptName := some "Stripe Payment Gateway"
       purpose := some "Payment processing"
       dataCollected := some ["payment details", "transaction data"]
       riskLevel := some RiskLevel.LOW
       recommendation := some Recommendation.ALLOW
       reasoning := none }),
    ("paypal.com",
     { scriptName := some "PayPal"
       purpose := some "Payment processing"
       dataCollected := some ["payment details", "transaction data"]
       riskLevel := some RiskLevel.LOW
       recommendation := some Recommendation.ALLOW
       reasoning := none }),
    ("google-analytics.com",
     { scriptName := some "Google Analytics"
       purpose := some "Website analytics and tracking"
       dataCollected := some ["page views", "user behavior", "device info"]
       riskLevel := some RiskLevel.LOW
       recommendation := some Recommendation.ALLOW
       reasoning := none }),
    ("googletagmanager.com",
     { scriptName := some "Google Tag Manager"
       purpose := some "Tag management system"
       dataCollected := some ["page views", "events", "user interactions"]
       riskLevel := some RiskLevel.LOW
       recommendation := some Recommendation.ALLOW
       reasoning := none }),
    ("facebook.net",
     { scriptName := some "Facebook Pixel"
       purpose := some "Advertising and conversion tracking"
       dataCollected := some ["page views", "events", "user behavior"]
       riskLevel := some RiskLevel.MEDIUM
       recommendation := some Recommendation.MONITOR
       reasoning := some "Tracks user behavior for advertising purposes" }),
    ("connect.facebook.net",
     { scriptName := some "Facebook SDK"
       purpose := some "Social login and sharing"
       dataCollected := some ["profile data", "social interactions"]
       riskLevel := some RiskLevel.MEDIUM
       recommendation := some Recommendation.MONITOR
       reasoning := none }),
    ("doubleclick.net",
     { scriptName := some "Google DoubleClick"
       purpose := some "Ad serving and tracking"
       dataCollected := some ["browsing behavior", "ad interactions"]
       riskLevel := some RiskLevel.MEDIUM
       recommendation := some Recommendation.MONITOR
       reasoning := none }),
    ("googlesyndication.com",
     { scriptName := some "Google AdSense"
       purpose := some "Display advertisements"
       dataCollected := some ["browsing context", "ad performance"]
       riskLevel := some RiskLevel.MEDIUM
       recommendation := some Recommendation.MONITOR
       reasoning := none }),
    ("ajax.googleapis.com",
     { scriptName := some "Google CDN"
       purpose := some "Content delivery (libraries)"
       dataCollected := some ["basic request data"]
       riskLevel := some RiskLevel.LOW
       recommendation := some Recommendation.ALLOW
       reasoning := none }),
    ("cdn.jsdelivr.net",
     { scriptName := some "jsDelivr CDN"
       purpose := some "Content delivery network"
       dataCollected := some ["basic request data"]
       riskLevel := some RiskLevel.LOW
       recommendation := some Recommendation.ALLOW
       reasoning := none }),
    ("cdnjs.cloudflare.com",
     { scriptName := some "Cloudflare CDN"
       purpose := some "Content delivery network"
       dataCollected := some ["basic request data"]
       riskLevel := some RiskLevel.LOW
       recommendation := some Recommendation.ALLOW
       reasoning := none }),
    ("unpkg.com",
     { scriptName := some "UNPKG CDN"
       purpose := some "NPM package CDN"
       dataCollected := some ["basic request data"]
       riskLevel := some RiskLevel.LOW
       recommendation := some Recommendation.ALLOW
       reasoning := none }) ]

/-- Mirror of the `KNOWN_SERVICES` lookup loop in `analyzeScript`
(lines 182-202): first entry whose key is contained in the script domain. -/
def findService (scriptDomain : String) : Option (String × ServiceTemplate) :=
  KNOWN_SERVICES.find? (fun p => jsIncludes scriptDomain p.1)

/-- JavaScript string interpolation of a possibly-absent string value:
`undefined` prints as "undefined". -/
def jsShow (s : Option String) : String :=
  s.getD "undefined"

/-- The fixed first-party record returned by `analyzeScript` (lines 152-162). -/
def firstPartyRecord (scriptUrl pageDomain scriptDomain : String) : ScriptAnalysis :=
  { scriptUrl := scriptUrl
    scriptName := "First-Party Script"
    purpose := "Part of the website\x27s core functionality"
    dataCollected := ["Website functionality data only"]
    destinations := [scriptDomain]
    riskLevel := RiskLevel.LOW
    reasoning := "This script is hosted on the same domain as the website"
    recommendation := Recommendation.ALLOW
    userFriendlyExplanation :=
      "This script is part of " ++ pageDomain ++
        "\x27s own code and is necessary for the website to work properly. It\x27s safe." }

/-- The fixed known-framework record returned by `analyzeScript` (lines 167-178). -/
def frameworkRecord (scriptUrl scriptDomain : String) : ScriptAnalysis :=
  { scriptUrl := scriptUrl
    scriptName := "Web Framework Component"
    purpose := "Powers website features and interactivity"
    dataCollected := ["Browser compatibility data"]
    destinations := [scriptDomain]
    riskLevel := RiskLevel.LOW
    reasoning := "Standard web framework file (Next.js/React/Vue)"
    recommendation := Recommendation.ALLOW
    userFriendlyExplanation :=
      "This is a framework file that helps the website function. It\x27s a standard component and safe." }

/-- The registry-template record returned by `analyzeScript` (lines 184-200):
absent template fields fall back through `||` to the literal defaults. -/
def serviceRecord (scriptUrl scriptDomain : String) (tmpl : ServiceTemplate) : ScriptAnalysis :=
  { scriptUrl := scriptUrl
    scriptName := tmpl.scriptName.getD "Known Service"
    purpose := tmpl.purpose.getD "Third-party service"
    dataCollected := tmpl.dataCollected.getD []
    destinations := [scriptDomain]
    riskLevel := tmpl.riskLevel.getD RiskLevel.MEDIUM
    reasoning := tmpl.reasoning.getD "Recognized third-party service"
    recommendation := tmpl.recommendation.getD Recommendation.MONITOR
    userFriendlyExplanation :=
      "This is " ++ jsShow tmpl.scriptName ++ ", commonly used for " ++ jsShow tmpl.purpose ++
        ". " ++
        (if tmpl.riskLevel = some RiskLevel.LOW then "It\x27s generally safe."
         else "Monitor for privacy concerns.") }

/-- The fixed fallback record from the `catch` block of `analyzeScript`
(lines 264-275). -/
def fallbackRecord (script : ScriptInfo) (scriptDomain : String) : ScriptAnalysis :=
  { scriptUrl := script.url
    scriptName := "Unrecognized Third-Party Script"
    purpose := "Unknown - requires manual review"
    dataCollected := ["Unknown - should be investigated"]
    destinations := [scriptDomain]
    riskLevel := RiskLevel.MEDIUM
    reasoning := "This script is from an unfamiliar domain and should be reviewed by a developer"
    recommendation := Recommendation.MONITOR
    userFriendlyExplanation :=
      "This script is from " ++ scriptDomain ++
        ", which is not in our database of known services. We recommend reviewing what this script does before allowing it." }

/-- Model of a JSON object decoded from the oracle classification response,
restricted to payloads following the schema the prompt demands; `scriptUrl`
and `destinations` are optional there, which matters because the object is
spread over a literal that already set both fields. -/
structure OracleJson where
  scriptName : String
  purpose : String
  dataCollected : List String
  riskLevel : RiskLevel
  reasoning : String
  recommendation : Recommendation
  userFriendlyExplanation : String
  jsonScriptUrl : Option String
  jsonDestinations : Option (List String)
deriving DecidableEq, Repr

/-- Mirror of the regex extraction `String(text).match(/\x7b[\s\S]*\x7d/)`
in `analyzeScript` (line 247): the greedy match spans from the first opening
brace to the last closing brace, when the latter comes after the former. -/
def extractJsonSpan (s : String) : Option String :=
  let cs := s.toList
  match cs.findIdx? (fun c => c = '{'), cs.reverse.findIdx? (fun c => c = '}') with
  | some i, some rj =>
    let j := cs.length - 1 - rj
    if i < j then some (String.mk ((cs.drop i).take (j - i + 1))) else none
  | _, _ => none

/-- Extraction followed by `JSON.parse`, where the parse itself is the
abstracted platform primitive `jsonParse`. -/
def oracleTextJson (jsonParse : String → Option OracleJson) (text : String) :
    Option OracleJson :=
  (extractJsonSpan text).bind jsonParse

/-- The record built from a decoded oracle payload (lines 251-255): the
object literal sets `scriptUrl` and `destinations` first and then spreads
the payload, so payload fields override both when present. -/
def oracleRecord (script : ScriptInfo) (scriptDomain : String) (j : OracleJson) :
    ScriptAnalysis :=
  { scriptUrl := j.jsonScriptUrl.getD script.url
    scriptName := j.scriptName
    purpose := j.purpose
    dataCollected := j.dataCollected
    destinations := j.jsonDestinations.getD [scriptDomain]
    riskLevel := j.riskLevel
    reasoning := j.reasoning
    recommendation := j.recommendation
    userFriendlyExplanation := j.userFriendlyExplanation }

/-- Mirror of `analyzeScript` from `src/worker/analyzer.ts` (lines 142-277).
The first `new URL(script.url).hostname` is inside the big `try`, but the
`catch` block runs `new URL(script.url).hostname` again, so an unparsable
script URL throws out of the function: that is the `Except.error` case.
Every other path returns a record: oracle errors, a response without a
brace-delimited span, and spans `JSON.parse` rejects all land in the
`catch` with a parsable URL and produce the fallback record. -/
def analyzeScript (script : ScriptInfo) (pageDomain : String)
    (oracle : String → String → Except Unit String)
    (jsonParse : String → Option OracleJson) : Except Unit ScriptAnalysis :=
  match parseHostname script.url with
  | none => Except.error ()
  | some scriptDomain =>
    if isFirstParty script.url pageDomain then
      Except.ok (firstPartyRecord script.url pageDomain scriptDomain)
    else if isKnownFramework script.url then
      Except.ok (frameworkRecord script.url scriptDomain)
    else
      match findService scriptDomain with
      | some kv => Except.ok (serviceRecord script.url scriptDomain kv.2)
      | none =>
        match oracle script.url scriptDomain with
        | Except.error _ => Except.ok (fallbackRecord script scriptDomain)
        | Except.ok text =>
          match oracleTextJson jsonParse text with
          | none => Except.ok (fallbackRecord script scriptDomain)
          | some j => Except.ok (oracleRecord script scriptDomain j)

/-- Mirror of the third-party filter in the `/api/v1/analyze` route
(`src/worker/index.ts` lines 310-317): a script is third-party when its URL
parses and its hostname differs (exact string comparison) from the page
hostname; a URL the constructor rejects is dropped. -/
def thirdPartyFilter (scripts : List ScriptInfo) (pageDomain : String) : List ScriptInfo :=
  scripts.filter fun s =>
    match parseHostname s.url with
    | some d => d != pageDomain
    | none => false

/-- Join of `Promise.all`: succeeds with the list of values when every
promise resolved, fails when any rejected. -/
def allOk : List (Except Unit ScriptAnalysis) → Option (List ScriptAnalysis)
  | [] => some []
  | Except.ok a :: rest => (allOk rest).map (a :: ·)
  | Except.error _ :: _ => none

/-- Mirror of the result assembly of the `/api/v1/analyze` route
(`src/worker/index.ts` lines 305-340), starting from the renderer output
(`scripts`, `pageDomain`): filter third-party scripts, analyze the first 10
concurrently, and assemble `AnalysisResult`.  `none` models the route's
`catch` answering 500 when `Promise.all` rejects. -/
def analyzeBatch (url : String) (scripts : List ScriptInfo) (pageDomain : String)
    (oracle : String → String → Except Unit String)
    (jsonParse : String → Option OracleJson) : Option AnalysisResult :=
  let tps := thirdPartyFilter scripts pageDomain
  match allOk ((tps.take 10).map fun s => analyzeScript s pageDomain oracle jsonParse) with
  | none => none
  | some analyses =>
    some
      { success := true
        url := url
        totalScripts := scripts.length
        thirdPartyScripts := tps.length
        scripts := tps
        analyses := some analyses
        summary := none }

/-- Decimal digit character for a value below ten. -/
def digitChar : Nat → Char
  | 0 => '0'
  | 1 => '1'
  | 2 => '2'
  | 3 => '3'
  | 4 => '4'
  | 5 => '5'
  | 6 => '6'
  | 7 => '7'
  | 8 => '8'
  | _ => '9'

/-- Numeric value of a decimal digit character. -/
def digitVal : Char → Nat
  | '0' => 0
  | '1' => 1
  | '2' => 2
  | '3' => 3
  | '4' => 4
  | '5' => 5
  | '6' => 6
  | '7' => 7
  | '8' => 8
  | _ => 9

/-- Fuel-driven core of the decimal printer; with fuel above the number it
produces the decimal digit list, most significant first. -/
def natDecDigitsCore : Nat → Nat → List Char
  | 0, _ => []
  | fuel + 1, n =>
    if n < 10 then [digitChar n]
    else natDecDigitsCore fuel (n / 10) ++ [digitChar (n % 10)]

/-- Decimal digit list of a natural number, most significant first. -/
def natDecDigits (n : Nat) : List Char :=
  natDecDigitsCore (n + 1) n

/-- Model of JavaScript number-to-string interpolation for a nonnegative
integer such as `Date.now()`: the usual decimal representation. -/
def natDecStr (n : Nat) : String :=
  String.mk (natDecDigits n)

/-- Mirror of `ChatMessage` as actually sent by the `/api/v1/chat` route
(`src/worker/index.ts` lines 388-413): role, content, timestamp. -/
structure ChatMessageRec where
  role : String
  content : String
  timestamp : Nat
deriving DecidableEq, Repr

/-- Mirror of `ChatSession` stored by the durable object
(`ScriptAnalyzer.initChatSession`). -/
structure ChatSession where
  sessionId : String
  messages : List ChatMessageRec
  analysisData : AnalysisResult
  createdAt : Nat
  lastActive : Nat
deriving DecidableEq, Repr

/-- A value held in durable-object storage: the analysis log and chat
sessions share one keyspace under the `analysis:` and `chat:` prefixes. -/
inductive StorageValue where
  | analysis (data : AnalysisResult)
  | chat (session : ChatSession)
deriving DecidableEq, Repr

/-- Durable-object storage, modelled as an association list from keys to
values. -/
abbrev Storage : Type :=
  List (String × StorageValue)

/-- Map read: `this.ctx.storage.get(key)`. -/
def doGet (st : Storage) (k : String) : Option StorageValue :=
  (st.find? (fun p => p.1 = k)).map (fun p => p.2)

/-- Map write: `this.ctx.storage.put(key, value)` replaces any existing
binding of the key (the claims below never depend on entry order). -/
def doPut (st : Storage) (k : String) (v : StorageValue) : Storage :=
  st.filter (fun p => p.1 ≠ k) ++ [(k, v)]

/-- Mirror of `ScriptAnalyzer.storeAnalysis` (`ScriptAnalyzer.ts`): the key
is `analysis:` + url + `:` + `Date.now()`, and the record is `put` under it.
Returns the assigned key with the updated storage. -/
def storeAnalysis (st : Storage) (data : AnalysisResult) (now : Nat) : String × Storage :=
  let key := "analysis:" ++ data.url ++ ":" ++ natDecStr now
  (key, doPut st key (StorageValue.analysis data))

/-- Outcome of a `storeChatMessage` request. -/
inductive StoreMsgOutcome where
  | success
  | sessionNotFound
  | internalError
deriving DecidableEq, Repr

/-- Mirror of `ScriptAnalyzer.storeChatMessage`: look up `chat:` + id; a
missing session answers 404 (`sessionNotFound`) and leaves storage
untouched; otherwise the message is appended and `lastActive` bumped.  A
non-session value under the key (impossible through this API, the cast in
the source is unchecked) would make `session.messages.push` throw, landing
in the 500 `catch`: `internalError`, storage untouched. -/
def storeChatMessage (st : Storage) (sessionId : String) (msg : ChatMessageRec)
    (now : Nat) : StoreMsgOutcome × Storage :=
  match doGet st ("chat:" ++ sessionId) with
  | none => (StoreMsgOutcome.sessionNotFound, st)
  | some (StorageValue.analysis _) => (StoreMsgOutcome.internalError, st)
  | some (StorageValue.chat session) =>
    let updated := { session with
      messages := session.messages ++ [msg]
      lastActive := now }
    (StoreMsgOutcome.success, doPut st ("chat:" ++ sessionId) (StorageValue.chat updated))

/-- Mirror of `ScriptAnalyzer.getChatHistory`: the source guard
`if (!sessionId)` answers 400 (`Except.error`) for a falsy parameter, which
covers both a missing (`null`) and an empty-string `sessionId`; a missing
session answers 200 with an empty message list and a null snapshot; an
existing session answers its messages and snapshot.  A non-session value
under the key is unreachable through this API and is mapped to the error
case. -/
def getChatHistory (st : Storage) (sessionId : Option String) :
    Except Unit (List ChatMessageRec × Option AnalysisResult) :=
  match sessionId with
  | none => Except.error ()
  | some id =>
    if id = "" then Except.error ()
    else
      match doGet st ("chat:" ++ id) with
      | none => Except.ok ([], none)
      | some (StorageValue.chat session) => Except.ok (session.messages, some session.analysisData)
      | some (StorageValue.analysis _) => Except.error ()

/-- Mirror of `ScriptAnalyzer.initChatSession`: unconditionally `put` a
fresh session (empty messages, given snapshot) under `chat:` + id. -/
def initChatSession (st : Storage) (sessionId : String) (analysisData : AnalysisResult)
    (now : Nat) : Storage :=
  doPut st ("chat:" ++ sessionId)
    (StorageValue.chat
      { sessionId := sessionId
        messages := []
        analysisData := analysisData
        createdAt := now
        lastActive := now })

/-- Interpolation of a `riskLevel` value into a template string. -/
def riskLevelStr : RiskLevel → String
  | RiskLevel.LOW => "LOW"
  | RiskLevel.MEDIUM => "MEDIUM"
  | RiskLevel.HIGH => "HIGH"
  | RiskLevel.CRITICAL => "CRITICAL"

/-- Interpolation of a `recommendation` value into a template string. -/
def recommendationStr : Recommendation → String
  | Recommendation.ALLOW => "ALLOW"
  | Recommendation.MONITOR => "MONITOR"
  | Recommendation.BLOCK => "BLOCK"

/-- One summary block of `buildAnalysisContext` (`src/worker/chat.ts`
lines 74-81). -/
def scriptSummary (script : ScriptAnalysis) : String :=
  "- " ++ script.scriptName ++ " (" ++ script.scriptUrl ++ ")\n  Purpose: " ++
    script.purpose ++ "\n  Risk: " ++ riskLevelStr script.riskLevel ++
    "\n  Data Collected: " ++ String.intercalate ", " script.dataCollected ++
    "\n  Recommendation: " ++ recommendationStr script.recommendation

/-- Mirror of `buildAnalysisContext` (`src/worker/chat.ts` lines 64-93):
an absent result or an absent `analyses` field yields the fixed no-context
marker, otherwise the rendered context. -/
def buildAnalysisContext (analysisData : Option AnalysisResult) : String :=
  match analysisData with
  | none => "No analysis data available yet. User is asking a general question about scripts."
  | some d =>
    match d.analyses with
    | none => "No analysis data available yet. User is asking a general question about scripts."
    | some analyses =>
      "ANALYSIS CONTEXT:\nWebsite analyzed: " ++ d.url ++
        "\nTotal scripts: " ++ natDecStr d.totalScripts ++
        "\nThird-party scripts: " ++ natDecStr d.thirdPartyScripts ++
        "\n\nDetected Scripts:\n" ++
        String.intercalate "\n\n" (analyses.map scriptSummary) ++
        "\n\nUse this context to answer the user\x27s questions accurately."

/-- JavaScript `s.trim()`: remove leading and trailing whitespace. -/
def jsTrim (s : String) : String :=
  String.mk (((s.toList.dropWhile Char.isWhitespace).reverse.dropWhile Char.isWhitespace).reverse)

/-- JavaScript `s.lastIndexOf(c)`: last index of the character, `-1` when
absent. -/
def jsLastIndexOf (s : String) (c : Char) : Int :=
  match s.toList.reverse.findIdx? (fun d => d = c) with
  | none => -1
  | some rj => ((s.toList.length - 1 - rj : Nat) : Int)

/-- JavaScript `s.slice(0, e)`: a negative end counts from the end of the
string. -/
def jsSliceTo (s : String) (e : Int) : String :=
  String.mk (s.toList.take (Int.toNat (if e < 0 then (s.toList.length : Int) + e else e)))

/-- The system-prompt guideline text of `handleChatMessage`
(`src/worker/chat.ts` lines 18-30), up to the appended context. -/
def chatGuidelines : String :=
  "You are a cybersecurity expert assistant helping users understand third-party scripts on websites.\n\nANSWER GUIDELINES:\n- Answer the user\x27s question ONLY about the detected third-party scripts on this website.\n- Summarize your answer in UNDER 200 words.\n- Focus on the most important points.\n- If the answer has multiple scripts or items, use bullet points and include NO MORE THAN 5 items, even if the question asks for \"all\" or \"every\".\n- If asked for an extremely detailed or long list, say \"Only showing top 5 due to space limits.\"\n- Your response MUST fit in a single short message.\n- If you cannot answer, say so directly.\n\nAlways be clear, direct, and user-friendly.\n"

/-- The fixed apology returned from the `catch` of `handleChatMessage`. -/
def chatApologyText : String :=
  "Sorry, I encountered an error processing your question. Please try again."

/-- The default used when the oracle reply text is falsy (empty). -/
def emptyReplyText : String :=
  "Sorry, I could not generate a response."

/-- The warning appended by the truncation branch of `handleChatMessage`. -/
def truncationSuffix : String :=
  "\n\n⚠️ Response truncated. Ask for specific details if needed."

/-- Mirror of `handleChatMessage` (`src/worker/chat.ts` lines 9-62).  The
oracle chat call is abstracted as a function of the system prompt and the
user message returning a thrown error or the reply text; the `||` chain
replaces an empty (falsy) text by a fixed default, and a reply longer than
1800 characters whose trimmed form does not end in a period is cut at its
last space with a warning appended. -/
def handleChatMessage (message : String) (analysisData : Option AnalysisResult)
    (oracle : String → String → Except Unit String) : String :=
  let context := buildAnalysisContext analysisData
  let systemPrompt := chatGuidelines ++ context
  match oracle systemPrompt message with
  | Except.error _ => chatApologyText
  | Except.ok text =>
    let reply := if text = "" then emptyReplyText else text
    if 1800 < reply.length ∧ jsEndsWith (jsTrim reply) "." = false then
      jsSliceTo reply (jsLastIndexOf reply ' ') ++ truncationSuffix
    else
      reply

/-- The resolver returns a record (never an error) whenever the script URL
parses, whatever the oracle and the JSON decoder do. -/
theorem analyzeScript_ok {script : ScriptInfo} {pageDomain d : String}
    (oracle : String → String → Except Unit String)
    (jsonParse : String → Option OracleJson)
    (h : parseHostname script.url = some d) :
    ∃ r, analyzeScript script pageDomain oracle jsonParse = Except.ok r := by
  simp only [analyzeScript, h]
  repeat' split
  all_goals exact ⟨_, rfl⟩

/-- Utility: `Option.bind` hitting `some`. -/
theorem bind_eq_some_parts {α β : Type} {o : Option α} {f : α → Option β} {b : β}
    (h : o.bind f = some b) : ∃ a, o = some a ∧ f a = some b := by
  cases o with
  | none => simp at h
  | some a => exact ⟨a, rfl, h⟩

/-- When the JSON decoder never yields a `scriptUrl` field, the record
built from an oracle payload keeps the script URL. -/
theorem oracleRecord_scriptUrl {script : ScriptInfo} {d : String}
    {jsonParse : String → Option OracleJson}
    (hjp : ∀ t j, jsonParse t = some j → j.jsonScriptUrl = none)
    {text : String} {j : OracleJson}
    (hjson : oracleTextJson jsonParse text = some j) :
    (oracleRecord script d j).scriptUrl = script.url := by
  obtain ⟨span, -, hspan2⟩ := bind_eq_some_parts (o := extractJsonSpan text) hjson
  simp [oracleRecord, hjp span j hspan2]

/-- Every branch of the resolver copies the script URL into the record,
except the oracle branch, which the JSON payload can override; when the
decoder never yields a `scriptUrl` field, the copy is exact. -/
theorem analyzeScript_scriptUrl {script : ScriptInfo} {pageDomain d : String}
    {oracle : String → String → Except Unit String}
    {jsonParse : String → Option OracleJson} {r : ScriptAnalysis}
    (hjp : ∀ t j, jsonParse t = some j → j.jsonScriptUrl = none)
    (h : parseHostname script.url = some d)
    (hr : analyzeScript script pageDomain oracle jsonParse = Except.ok r) :
    r.scriptUrl = script.url := by
  simp only [analyzeScript, h] at hr
  split at hr
  · cases hr
    rfl
  · split at hr
    · cases hr
      rfl
    · split at hr
      · cases hr
        rfl
      · split at hr
        · cases hr
          rfl
        · split at hr
          · cases hr
            rfl
          · cases hr
            exact oracleRecord_scriptUrl hjp (by assumption)

/-- When every element of a list of resolver outcomes is a success,
`Promise.all` joins to exactly the list of payloads. -/
theorem allOk_of_forall_ok :
    ∀ (l : List (Except Unit ScriptAnalysis)),
      (∀ x ∈ l, ∃ a, x = Except.ok a) →
      ∃ as, allOk l = some as ∧ l = as.map Except.ok := by
  intro l
  induction l with
  | nil => exact fun _ => ⟨[], rfl, rfl⟩
  | cons x rest ih =>
    intro h
    obtain ⟨a, ha⟩ := h x (List.mem_cons_self x rest)
    obtain ⟨as, has, hrest⟩ := ih (fun y hy => h y (List.mem_cons_of_mem x hy))
    subst ha
    exact ⟨a :: as, by simp [allOk, has], by simp [hrest]⟩

/-- Membership in the third-party filter output characterised. -/
theorem mem_thirdPartyFilter {scripts : List ScriptInfo} {pageDomain : String}
    {s : ScriptInfo} (hs : s ∈ scripts) :
    s ∈ thirdPartyFilter scripts pageDomain ↔
      ∃ d, parseHostname s.url = some d ∧ d ≠ pageDomain := by
  unfold thirdPartyFilter
  rw [List.mem_filter]
  constructor
  · rintro ⟨-, hmatch⟩
    cases hp : parseHostname s.url with
    | none => rw [hp] at hmatch; simp at hmatch
    | some d =>
      rw [hp] at hmatch
      refine ⟨d, rfl, ?_⟩
      simpa using hmatch
  · rintro ⟨d, hd, hne⟩
    refine ⟨hs, ?_⟩
    rw [hd]
    simpa using hne

/-- Every script kept by the third-party filter has a parsable URL. -/
theorem thirdPartyFilter_parses {scripts : List ScriptInfo} {pageDomain : String}
    {s : ScriptInfo} (hs : s ∈ thirdPartyFilter scripts pageDomain) :
    ∃ d, parseHostname s.url = some d := by
  have hmem : s ∈ scripts := List.mem_of_mem_filter hs
  obtain ⟨d, hd, -⟩ := (mem_thirdPartyFilter hmem).mp hs
  exact ⟨d, hd⟩

/-- Value of a decimal digit character round-trips. -/
theorem digitVal_digitChar {d : Nat} (h : d < 10) : digitVal (digitChar d) = d := by
  interval_cases d <;> rfl

/-- Decimal decoding of a digit list, most significant first. -/
def decodeDigits (l : List Char) : Nat :=
  l.foldl (fun acc c => 10 * acc + digitVal c) 0

/-- Decoding after appending one digit. -/
theorem decodeDigits_append_digit (l : List Char) (c : Char) :
    decodeDigits (l ++ [c]) = 10 * decodeDigits l + digitVal c := by
  simp [decodeDigits, List.foldl_append]

/-- With sufficient fuel the decimal printing decodes back to its input. -/
theorem decodeDigits_natDecDigitsCore :
    ∀ fuel n : Nat, n < fuel → decodeDigits (natDecDigitsCore fuel n) = n := by
  intro fuel
  induction fuel with
  | zero => intro n h; omega
  | succ f ih =>
    intro n h
    unfold natDecDigitsCore
    split
    · rename_i h10
      simp [decodeDigits, digitVal_digitChar h10]
    · rename_i h10
      have hlt : n / 10 < n := Nat.div_lt_self (by omega) (by omega)
      rw [decodeDigits_append_digit, ih (n / 10) (by omega),
        digitVal_digitChar (Nat.mod_lt n (by omega))]
      exact Nat.div_add_mod n 10

/-- The decimal printing of a natural number decodes back to it. -/
theorem decodeDigits_natDecDigits (n : Nat) : decodeDigits (natDecDigits n) = n :=
  decodeDigits_natDecDigitsCore (n + 1) n (by omega)

/-- The decimal digit list map is injective. -/
theorem natDecDigits_injective {m n : Nat} (h : natDecDigits m = natDecDigits n) :
    m = n := by
  have := congrArg decodeDigits h
  rwa [decodeDigits_natDecDigits, decodeDigits_natDecDigits] at this

/-- The modelled number-to-string interpolation is injective. -/
theorem natDecStr_injective {m n : Nat} (h : natDecStr m = natDecStr n) : m = n := by
  apply natDecDigits_injective
  have := congrArg String.data h
  simpa [natDecStr] using this

/-- Reading the key just written returns the written value. -/
theorem doGet_doPut_self (st : Storage) (k : String) (v : StorageValue) :
    doGet (doPut st k v) k = some v := by
  induction st with
  | nil => simp [doGet, doPut, List.find?]
  | cons p rest ih =>
    by_cases hp : p.1 = k
    · simp only [doGet, doPut, List.filter_cons, hp] at ih ⊢
      simp
    · simp only [doGet, doPut, List.filter_cons, hp] at ih ⊢
      simp [List.find?, hp]

/-- One step of `doPut` on a cons cell whose key is the written key. -/
theorem doPut_cons_self {p : String × StorageValue} {rest : Storage} {k : String}
    (v : StorageValue) (hp : p.1 = k) :
    doPut (p :: rest) k v = doPut rest k v := by
  simp [doPut, List.filter_cons, hp]

/-- One step of `doPut` on a cons cell whose key differs from the written key. -/
theorem doPut_cons_ne {p : String × StorageValue} {rest : Storage} {k : String}
    (v : StorageValue) (hp : p.1 ≠ k) :
    doPut (p :: rest) k v = p :: doPut rest k v := by
  simp [doPut, List.filter_cons, hp]

/-- Writing one key leaves every other key unchanged. -/
theorem doGet_doPut_ne (st : Storage) {k k' : String} (v : StorageValue)
    (h : k' ≠ k) : doGet (doPut st k v) k' = doGet st k' := by
  induction st with
  | nil => simp [doGet, doPut, List.find?, Ne.symm h]
  | cons p rest ih =>
    by_cases hp : p.1 = k
    · have hp' : p.1 ≠ k' := by rw [hp]; exact Ne.symm h
      rw [doPut_cons_self v hp, ih]
      simp [doGet, List.find?, hp']
    · rw [doPut_cons_ne v hp]
      by_cases hq : p.1 = k'
      · simp [doGet, List.find?, hq]
      · simpa [doGet, List.find?, hq] using ih

/-- Claim C1, counterexample: the resolver is not total over all script
records — for a record whose `url` the URL constructor rejects, the first
`new URL` throws and the `catch` block rethrows while recomputing the
hostname, so `analyzeScript` propagates an error instead of returning a
record. -/
theorem C1_counterexample_malformed_url_propagates :
    analyzeScript ⟨"not a url", 0⟩ "shop.example.com"
      (fun _ _ => Except.error ()) (fun _ => none) = Except.error () := by
  rfl

/-- Claim C1 (amended): for every script record whose `url` is a URL the
platform constructor accepts, `analyzeScript` returns exactly one record and
never propagates an error; in particular, whenever the oracle tier is
reached and the oracle call throws or its response contains no parsable
JSON object, it returns the fixed fallback record (whose fields include
`scriptName="Unrecognized Third-Party Script"`, `riskLevel=MEDIUM`,
`recommendation=MONITOR`). -/
theorem C1_resolver_total_and_fallback {script : ScriptInfo} {pageDomain d : String}
    (oracle : String → String → Except Unit String)
    (jsonParse : String → Option OracleJson)
    (hparse : parseHostname script.url = some d) :
    (∃ r, analyzeScript script pageDomain oracle jsonParse = Except.ok r) ∧
    (isFirstParty script.url pageDomain = false →
      isKnownFramework script.url = false →
      findService d = none →
      (oracle script.url d = Except.error () ∨
        ∃ text, oracle script.url d = Except.ok text ∧ oracleTextJson jsonParse text = none) →
      analyzeScript script pageDomain oracle jsonParse =
        Except.ok (fallbackRecord script d)) := by
  refine ⟨analyzeScript_ok oracle jsonParse hparse, ?_⟩
  intro hfp hkf hsvc hora
  simp only [analyzeScript, hparse, hfp, hkf, hsvc, Bool.false_eq_true, if_false]
  rcases hora with h | ⟨text, ht, hj⟩
  · rw [h]
  · simp only [ht, hj]

/-- Witness for `C1_resolver_total_and_fallback` at a concrete unknown
domain with a throwing oracle. -/
theorem C1_resolver_total_and_fallback_witness :
    analyzeScript ⟨"https://unknown-tracker.io/x.js", 0⟩ "shop.example.com"
        (fun _ _ => Except.error ()) (fun _ => none) =
      Except.ok (fallbackRecord ⟨"https://unknown-tracker.io/x.js", 0⟩ "unknown-tracker.io") :=
  (C1_resolver_total_and_fallback (fun _ _ => Except.error ()) (fun _ => none)
      (by decide)).2 (by decide) (by decide) (by decide) (Or.inl rfl)

/-- Claim C2: a script whose host, after stripping a leading `www.` from
both hosts, equals the page host or is a subdomain or parent domain of it,
always resolves to a `riskLevel=LOW, recommendation=ALLOW` record; the
result is the same for every oracle and decoder behaviour (the oracle is
not consulted), and the registry is never reached. -/
theorem C2_first_party_low_allow (scriptUrl pageDomain hostName : String) (ts : Nat)
    (oracle : String → String → Except Unit String)
    (jsonParse : String → Option OracleJson)
    (hparse : parseHostname scriptUrl = some hostName)
    (hrel : stripWww hostName = stripWww pageDomain ∨
      jsEndsWith (stripWww hostName) ("." ++ stripWww pageDomain) = true ∨
      jsEndsWith (stripWww pageDomain) ("." ++ stripWww hostName) = true) :
    ∃ r, analyzeScript ⟨scriptUrl, ts⟩ pageDomain oracle jsonParse = Except.ok r ∧
      r.riskLevel = RiskLevel.LOW ∧ r.recommendation = Recommendation.ALLOW := by
  have hfp : isFirstParty scriptUrl pageDomain = true := by
    simp only [isFirstParty, hparse]
    rcases hrel with h | h | h <;> simp [h]
  refine ⟨firstPartyRecord scriptUrl pageDomain hostName, ?_, rfl, rfl⟩
  simp [analyzeScript, hparse, hfp]

/-- Witness for `C2_first_party_low_allow` on a `www.`-prefixed first-party
script. -/
theorem C2_first_party_low_allow_witness :
    ∃ r, analyzeScript ⟨"https://www.shop.example/a.js", 7⟩ "shop.example"
        (fun _ _ => Except.error ()) (fun _ => none) = Except.ok r ∧
      r.riskLevel = RiskLevel.LOW ∧ r.recommendation = Recommendation.ALLOW :=
  C2_first_party_low_allow "https://www.shop.example/a.js" "shop.example"
    "www.shop.example" 7 (fun _ _ => Except.error ()) (fun _ => none)
    (by decide) (Or.inl (by decide))

/-- The join over the first ten third-party scripts always succeeds, with
the outcome list mirroring the resolver calls elementwise. -/
theorem batch_allOk (scripts : List ScriptInfo) (pageDomain : String)
    (oracle : String → String → Except Unit String)
    (jsonParse : String → Option OracleJson) :
    ∃ as,
      allOk (((thirdPartyFilter scripts pageDomain).take 10).map
        (fun s => analyzeScript s pageDomain oracle jsonParse)) = some as ∧
      ((thirdPartyFilter scripts pageDomain).take 10).map
        (fun s => analyzeScript s pageDomain oracle jsonParse) = as.map Except.ok := by
  apply allOk_of_forall_ok
  intro x hx
  rw [List.mem_map] at hx
  obtain ⟨s, hs, rfl⟩ := hx
  have hmem : s ∈ thirdPartyFilter scripts pageDomain := List.mem_of_mem_take hs
  obtain ⟨d, hd⟩ := thirdPartyFilter_parses hmem
  exact analyzeScript_ok oracle jsonParse hd

/-- Claim C3: for any script list the batch orchestrator succeeds, its
`analyses` array has length `min(len(thirdPartyScripts), 10)` (only the
first ten third-party scripts in discovery order are resolved), and the
reported `thirdPartyScripts` count covers the full third-party set. -/
theorem C3_batch_lengths (url : String) (scripts : List ScriptInfo) (pageDomain : String)
    (oracle : String → String → Except Unit String)
    (jsonParse : String → Option OracleJson) :
    ∃ res as, analyzeBatch url scripts pageDomain oracle jsonParse = some res ∧
      res.analyses = some as ∧
      as.length = min (thirdPartyFilter scripts pageDomain).length 10 ∧
      res.thirdPartyScripts = (thirdPartyFilter scripts pageDomain).length := by
  obtain ⟨as, has, hmap⟩ := batch_allOk scripts pageDomain oracle jsonParse
  refine ⟨{ success := true, url := url, totalScripts := scripts.length,
            thirdPartyScripts := (thirdPartyFilter scripts pageDomain).length,
            scripts := thirdPartyFilter scripts pageDomain,
            analyses := some as, summary := none }, as, ?_, rfl, ?_, rfl⟩
  · simp only [analyzeBatch]
    rw [has]
  · have hlen := congrArg List.length hmap
    simp only [List.length_map] at hlen
    rw [← hlen, List.length_take, Nat.min_comm]

/-- Witness for `C3_batch_lengths` on the specification scenario: one
first-party script, one registry script, one unknown script. -/
theorem C3_batch_lengths_witness :
    ∃ res as, analyzeBatch "https://shop.example.com"
        [⟨"https://shop.example.com/app.js", 0⟩,
         ⟨"https://www.googletagmanager.com/gtag/js", 1⟩,
         ⟨"https://evil-tracker.io/x.js", 2⟩] "shop.example.com"
        (fun _ _ => Except.error ()) (fun _ => none) = some res ∧
      res.analyses = some as ∧
      as.length = min (thirdPartyFilter
        [⟨"https://shop.example.com/app.js", 0⟩,
         ⟨"https://www.googletagmanager.com/gtag/js", 1⟩,
         ⟨"https://evil-tracker.io/x.js", 2⟩] "shop.example.com").length 10 ∧
      res.thirdPartyScripts = (thirdPartyFilter
        [⟨"https://shop.example.com/app.js", 0⟩,
         ⟨"https://www.googletagmanager.com/gtag/js", 1⟩,
         ⟨"https://evil-tracker.io/x.js", 2⟩] "shop.example.com").length :=
  C3_batch_lengths "https://shop.example.com" _ "shop.example.com"
    (fun _ _ => Except.error ()) (fun _ => none)

/-- The record script URLs line up with the input scripts when the decoder
never produces a `scriptUrl` override. -/
theorem scriptUrls_of_ok_map {pageDomain : String}
    {oracle : String → String → Except Unit String}
    {jsonParse : String → Option OracleJson}
    (hjp : ∀ t j, jsonParse t = some j → j.jsonScriptUrl = none) :
    ∀ (l : List ScriptInfo) (as : List ScriptAnalysis),
      (∀ s ∈ l, ∃ d, parseHostname s.url = some d) →
      l.map (fun s => analyzeScript s pageDomain oracle jsonParse) = as.map Except.ok →
      as.map (fun a => a.scriptUrl) = l.map (fun s => s.url) := by
  intro l
  induction l with
  | nil =>
    intro as _ h
    cases as with
    | nil => rfl
    | cons a as' => simp at h
  | cons s rest ih =>
    intro as hparse h
    cases as with
    | nil => simp at h
    | cons a as' =>
      simp only [List.map_cons, List.cons.injEq] at h
      obtain ⟨hd_eq, htl⟩ := h
      obtain ⟨d, hd⟩ := hparse s (List.mem_cons_self s rest)
      have hurl := analyzeScript_scriptUrl hjp hd hd_eq
      simp only [List.map_cons, hurl, List.cons.injEq]
      exact ⟨trivial, ih as' (fun x hx => hparse x (List.mem_cons_of_mem s hx)) htl⟩

/-- Claim C4, counterexample: the oracle JSON is spread over the record
after `scriptUrl` is set, so a payload carrying its own `scriptUrl` field
overrides the correspondence between `analyses[i]` and the i-th third-party
script. -/
def c4text : String :=
  "\x7b\"scriptUrl\": \"https://evil.example/other.js\"\x7d"

/-- A decoded oracle payload carrying a `scriptUrl` field. -/
def c4mal : OracleJson :=
  { scriptName := "Evil Service"
    purpose := "p"
    dataCollected := []
    riskLevel := RiskLevel.LOW
    reasoning := "r"
    recommendation := Recommendation.ALLOW
    userFriendlyExplanation := "u"
    jsonScriptUrl := some "https://evil.example/other.js"
    jsonDestinations := none }

/-- A decoder behaving like `JSON.parse` on the payload `c4text`. -/
def c4parse : String → Option OracleJson :=
  fun t => if t = c4text then some c4mal else none

/-- Claim C4 counterexample: with one third-party script and an oracle
response whose JSON carries a `scriptUrl` field, `analyses[0].scriptUrl`
differs from the url of the first third-party script. -/
theorem C4_counterexample_scriptUrl_override :
    ((analyzeBatch "https://shop.example.com"
        [⟨"https://unknown-tracker.io/x.js", 0⟩] "shop.example.com"
        (fun _ _ => Except.ok c4text) c4parse).bind
      (fun r => r.analyses)).map (fun as => as.map (fun a => a.scriptUrl)) =
      some ["https://evil.example/other.js"] ∧
    "https://evil.example/other.js" ≠ "https://unknown-tracker.io/x.js" := by
  decide

/-- Claim C4 (amended): provided the decoded oracle JSON never carries a
`scriptUrl` field, `analyses[i].scriptUrl` equals the url of the i-th
third-party script in discovery order for every index (stated as equality
of the full url lists); a payload with a `scriptUrl` field overrides it. -/
theorem C4_analyses_correspond (url : String) (scripts : List ScriptInfo)
    (pageDomain : String)
    (oracle : String → String → Except Unit String)
    (jsonParse : String → Option OracleJson)
    (hjp : ∀ t j, jsonParse t = some j → j.jsonScriptUrl = none) :
    ((analyzeBatch url scripts pageDomain oracle jsonParse).bind
      (fun r => r.analyses)).map (fun as => as.map (fun a => a.scriptUrl)) =
      some (((thirdPartyFilter scripts pageDomain).take 10).map (fun s => s.url)) := by
  obtain ⟨as, has, hmap⟩ := batch_allOk scripts pageDomain oracle jsonParse
  have hparse : ∀ s ∈ (thirdPartyFilter scripts pageDomain).take 10,
      ∃ d, parseHostname s.url = some d := by
    intro s hs
    exact thirdPartyFilter_parses (List.mem_of_mem_take hs)
  have := scriptUrls_of_ok_map hjp _ as hparse hmap
  simp only [analyzeBatch]
  rw [has]
  simpa using this

/-- Witness for `C4_analyses_correspond` on a single unknown-domain script
with a throwing oracle. -/
theorem C4_analyses_correspond_witness :
    ((analyzeBatch "https://shop.example.com"
        [⟨"https://unknown-tracker.io/x.js", 0⟩] "shop.example.com"
        (fun _ _ => Except.error ()) (fun _ => none)).bind
      (fun r => r.analyses)).map (fun as => as.map (fun a => a.scriptUrl)) =
      some ["https://unknown-tracker.io/x.js"] :=
  (C4_analyses_correspond "https://shop.example.com"
      [⟨"https://unknown-tracker.io/x.js", 0⟩] "shop.example.com"
      (fun _ _ => Except.error ()) (fun _ => none)
      (fun _ _ h => Option.noConfusion h)).trans (by decide)

/-- Claim C5, counterexample: a script on a strict subdomain of the page
host is kept by the partition step (it is counted as third-party), because
the filter compares hostnames for exact equality rather than applying the
first-party sub/parent-domain test. -/
theorem C5_counterexample_subdomain_kept :
    thirdPartyFilter [⟨"https://sub.example.com/a.js", 0⟩] "example.com" =
      [⟨"https://sub.example.com/a.js", 0⟩] ∧
    parseHostname "https://sub.example.com/a.js" = some "sub.example.com" ∧
    jsEndsWith "sub.example.com" ("." ++ "example.com") = true := by
  decide

/-- Claim C5 (amended): the partition step excludes a script from the
third-party set exactly when its URL fails to parse or its hostname equals
the page host verbatim; a sub/parent-domain script therefore stays in the
third-party set (the resolver later returns a first-party LOW/ALLOW record
for it, but it is counted in `thirdPartyScripts` and occupies an
`analyses` slot). -/
theorem C5_partition_by_exact_host {scripts : List ScriptInfo} {pageDomain : String}
    {s : ScriptInfo} (hs : s ∈ scripts) :
    s ∈ thirdPartyFilter scripts pageDomain ↔
      ∃ d, parseHostname s.url = some d ∧ d ≠ pageDomain :=
  mem_thirdPartyFilter hs

/-- Witness for `C5_partition_by_exact_host` on a subdomain script. -/
theorem C5_partition_by_exact_host_witness :
    (⟨"https://sub.example.com/a.js", 0⟩ : ScriptInfo) ∈
      thirdPartyFilter [⟨"https://sub.example.com/a.js", 0⟩] "example.com" :=
  (C5_partition_by_exact_host (by simp)).mpr
    ⟨"sub.example.com", by decide, by decide⟩

/-- Claim C6, counterexample: the empty string is a session id with no
stored session for which `storeChatMessage` does answer 404 leaving storage
untouched, yet `getChatHistory` does not succeed with an empty history —
the source guard `if (!sessionId)` treats the empty parameter as falsy and
answers 400 `Session ID required`. -/
theorem C6_counterexample_empty_session_id :
    storeChatMessage [] "" ⟨"user", "hi", 3⟩ 4 =
      (StoreMsgOutcome.sessionNotFound, []) ∧
    doGet [] ("chat:" ++ "") = none ∧
    getChatHistory [] (some "") = Except.error () :=
  ⟨by decide, by decide, rfl⟩

/-- Claim C6 (amended): on a nonempty session id with no stored session,
`storeChatMessage` answers 404 (`sessionNotFound`) and leaves storage
untouched, while `getChatHistory` on the same id succeeds with an empty
message list and a null analysis snapshot; on the empty session id the
append still answers 404 but the history read answers 400 instead. -/
theorem C6_unknown_session (st : Storage) (sessionId : String)
    (msg : ChatMessageRec) (now : Nat)
    (hid : sessionId ≠ "")
    (h : doGet st ("chat:" ++ sessionId) = none) :
    storeChatMessage st sessionId msg now = (StoreMsgOutcome.sessionNotFound, st) ∧
    getChatHistory st (some sessionId) = Except.ok ([], none) := by
  constructor
  · unfold storeChatMessage
    rw [h]
  · simp only [getChatHistory]
    rw [if_neg hid]
    simp only [h]

/-- Witness for `C6_unknown_session` on empty storage. -/
theorem C6_unknown_session_witness :
    storeChatMessage [] "sess1" ⟨"user", "hi", 3⟩ 4 =
      (StoreMsgOutcome.sessionNotFound, []) ∧
    getChatHistory [] (some "sess1") = Except.ok ([], none) :=
  C6_unknown_session [] "sess1" ⟨"user", "hi", 3⟩ 4 (by decide) (by decide)

/-- A first stored analysis result (`totalScripts = 5`). -/
def c7resultA : AnalysisResult :=
  { success := true, url := "https://site.example", totalScripts := 5,
    thirdPartyScripts := 2, scripts := [], analyses := none, summary := none }

/-- A second stored analysis result for the same URL (`totalScripts = 7`). -/
def c7resultB : AnalysisResult :=
  { success := true, url := "https://site.example", totalScripts := 7,
    thirdPartyScripts := 3, scripts := [], analyses := none, summary := none }

/-- Claim C7, counterexample: two `storeAnalysis` calls for the same URL at
the same `Date.now()` value build the same key, so the second call
overwrites the first — the final storage holds a single entry and the first
record is gone. -/
theorem C7_counterexample_same_timestamp_overwrites :
    (storeAnalysis (storeAnalysis [] c7resultA 5).2 c7resultB 5).1 =
      (storeAnalysis [] c7resultA 5).1 ∧
    (storeAnalysis (storeAnalysis [] c7resultA 5).2 c7resultB 5).2 =
      [("analysis:https://site.example:5", StorageValue.analysis c7resultB)] ∧
    c7resultA.url = c7resultB.url ∧ c7resultA ≠ c7resultB := by
  decide

/-- Claim C7 (amended): two `storeAnalysis` calls for the same URL made at
distinct `Date.now()` values build distinct keys, and after both calls the
two records are stored under their respective keys — re-analysis appends
rather than overwriting whenever the timestamps differ. -/
theorem C7_append_only_distinct_timestamps (st : Storage) (d1 d2 : AnalysisResult)
    (n1 n2 : Nat) (hurl : d1.url = d2.url) (hne : n1 ≠ n2) :
    (storeAnalysis st d1 n1).1 ≠ (storeAnalysis (storeAnalysis st d1 n1).2 d2 n2).1 ∧
    doGet (storeAnalysis (storeAnalysis st d1 n1).2 d2 n2).2
        (storeAnalysis st d1 n1).1 = some (StorageValue.analysis d1) ∧
    doGet (storeAnalysis (storeAnalysis st d1 n1).2 d2 n2).2
        (storeAnalysis (storeAnalysis st d1 n1).2 d2 n2).1 =
      some (StorageValue.analysis d2) := by
  have hkey : ("analysis:" ++ d1.url ++ ":" ++ natDecStr n1) ≠
      ("analysis:" ++ d2.url ++ ":" ++ natDecStr n2) := by
    intro hk
    apply hne
    apply natDecStr_injective
    rw [hurl] at hk
    have hdata := congrArg String.data hk
    simp only [String.data_append] at hdata
    have := List.append_cancel_left hdata
    exact congrArg String.mk this
  refine ⟨hkey, ?_, ?_⟩
  · simp only [storeAnalysis]
    rw [doGet_doPut_ne _ _ hkey, doGet_doPut_self]
  · simp only [storeAnalysis]
    exact doGet_doPut_self _ _ _

/-- Witness for `C7_append_only_distinct_timestamps` at timestamps 5 and 6. -/
theorem C7_append_only_witness :
    (storeAnalysis [] c7resultA 5).1 ≠
      (storeAnalysis (storeAnalysis [] c7resultA 5).2 c7resultB 6).1 ∧
    doGet (storeAnalysis (storeAnalysis [] c7resultA 5).2 c7resultB 6).2
        (storeAnalysis [] c7resultA 5).1 = some (StorageValue.analysis c7resultA) ∧
    doGet (storeAnalysis (storeAnalysis [] c7resultA 5).2 c7resultB 6).2
        (storeAnalysis (storeAnalysis [] c7resultA 5).2 c7resultB 6).1 =
      some (StorageValue.analysis c7resultB) :=
  C7_append_only_distinct_timestamps [] c7resultA c7resultB 5 6 rfl (by omega)

/-- Claim C8, counterexample: an oracle chat call that succeeds with the
empty text does not get its raw text returned — the `||` default replaces
it by the fixed could-not-generate message, which is neither the raw text
nor the apology string. -/
theorem C8_counterexample_empty_success_modified :
    handleChatMessage "hi" none (fun _ _ => Except.ok "") = emptyReplyText ∧
    emptyReplyText ≠ "" ∧ emptyReplyText ≠ chatApologyText := by
  decide

/-- Claim C8 (amended): `handleChatMessage` never throws; on a thrown
oracle call it returns the fixed apology string, and on a successful call
it returns the oracle text unmodified unless the text is empty (a fixed
could-not-generate default is returned) or longer than 1800 characters
without a trimmed trailing period (it is cut at its last space and a fixed
warning is appended). -/
theorem C8_chat_reply_cases (message : String) (analysisData : Option AnalysisResult)
    (oracle : String → String → Except Unit String) :
    (∀ e, oracle (chatGuidelines ++ buildAnalysisContext analysisData) message =
        Except.error e →
      handleChatMessage message analysisData oracle = chatApologyText) ∧
    (oracle (chatGuidelines ++ buildAnalysisContext analysisData) message =
        Except.ok "" →
      handleChatMessage message analysisData oracle = emptyReplyText) ∧
    (∀ t, oracle (chatGuidelines ++ buildAnalysisContext analysisData) message =
        Except.ok t →
      t ≠ "" → (t.length ≤ 1800 ∨ jsEndsWith (jsTrim t) "." = true) →
      handleChatMessage message analysisData oracle = t) ∧
    (∀ t, oracle (chatGuidelines ++ buildAnalysisContext analysisData) message =
        Except.ok t →
      t ≠ "" → 1800 < t.length → jsEndsWith (jsTrim t) "." = false →
      handleChatMessage message analysisData oracle =
        jsSliceTo t (jsLastIndexOf t ' ') ++ truncationSuffix) := by
  refine ⟨?_, ?_, ?_, ?_⟩
  · intro e he
    simp only [handleChatMessage, he]
  · intro he
    simp only [handleChatMessage, he]
    decide
  · intro t ht hne hshort
    simp only [handleChatMessage, ht]
    rw [if_neg hne, if_neg]
    rintro ⟨h1, h2⟩
    rcases hshort with h | h
    · omega
    · rw [h] at h2
      cases h2
  · intro t ht hne hlen hdot
    simp only [handleChatMessage, ht]
    rw [if_neg hne, if_pos ⟨hlen, hdot⟩]

/-- Witness for `C8_chat_reply_cases` on a short period-terminated reply. -/
theorem C8_chat_reply_cases_witness :
    handleChatMessage "hi" none (fun _ _ => Except.ok "All good.") = "All good." :=
  (C8_chat_reply_cases "hi" none (fun _ _ => Except.ok "All good.")).2.2.1
    "All good." rfl (by decide) (Or.inl (by decide))

/-- Claim C9: registry matching is substring containment on the script
host, so the host `stripe.com.evil.io` — neither `stripe.com` itself nor a
subdomain of it — matches the `stripe.com` registry entry and resolves to
the Stripe template with `riskLevel=LOW, recommendation=ALLOW`, identically
for every oracle and decoder behaviour (the oracle is not consulted). -/
theorem C9_registry_substring_match
    (oracle : String → String → Except Unit String)
    (jsonParse : String → Option OracleJson) :
    parseHostname "https://stripe.com.evil.io/track.js" = some "stripe.com.evil.io" ∧
    "stripe.com.evil.io" ≠ "stripe.com" ∧
    jsEndsWith "stripe.com.evil.io" ".stripe.com" = false ∧
    ∃ r, analyzeScript ⟨"https://stripe.com.evil.io/track.js", 0⟩ "shop.example.com"
        oracle jsonParse = Except.ok r ∧
      r.scriptName = "Stripe Payment Gateway" ∧
      r.riskLevel = RiskLevel.LOW ∧ r.recommendation = Recommendation.ALLOW := by
  have hparse : parseHostname "https://stripe.com.evil.io/track.js" =
      some "stripe.com.evil.io" := by decide
  have hfp : isFirstParty "https://stripe.com.evil.io/track.js" "shop.example.com" =
      false := by decide
  have hkf : isKnownFramework "https://stripe.com.evil.io/track.js" = false := by decide
  have hsvc : findService "stripe.com.evil.io" =
      some ("stripe.com",
        { scriptName := some "Stripe Payment Gateway"
          purpose := some "Payment processing"
          dataCollected := some ["payment details", "transaction data"]
          riskLevel := some RiskLevel.LOW
          recommendation := some Recommendation.ALLOW
          reasoning := none }) := by decide
  refine ⟨hparse, by decide, by decide, ?_⟩
  refine ⟨serviceRecord "https://stripe.com.evil.io/track.js" "stripe.com.evil.io"
    { scriptName := some "Stripe Payment Gateway"
      purpose := some "Payment processing"
      dataCollected := some ["payment details", "transaction data"]
      riskLevel := some RiskLevel.LOW
      recommendation := some Recommendation.ALLOW
      reasoning := none }, ?_, rfl, rfl, rfl⟩
  simp only [analyzeScript, hparse, hfp, hkf, hsvc, Bool.false_eq_true, if_false]

/-- Witness for `C9_registry_substring_match` with a throwing oracle. -/
theorem C9_registry_substring_match_witness :
    parseHostname "https://stripe.com.evil.io/track.js" = some "stripe.com.evil.io" ∧
    "stripe.com.evil.io" ≠ "stripe.com" ∧
    jsEndsWith "stripe.com.evil.io" ".stripe.com" = false ∧
    ∃ r, analyzeScript ⟨"https://stripe.com.evil.io/track.js", 0⟩ "shop.example.com"
        (fun _ _ => Except.error ()) (fun _ => none) = Except.ok r ∧
      r.scriptName = "Stripe Payment Gateway" ∧
      r.riskLevel = RiskLevel.LOW ∧ r.recommendation = Recommendation.ALLOW :=
  C9_registry_substring_match (fun _ _ => Except.error ()) (fun _ => none)

/-- Claim C10: the known-framework test matches the bare substrings
`chunk` and `runtime` (and `/react`, `/vue`, `/webpack`) anywhere in the
full script URL, so any non-first-party script with a parsable URL
containing one of them resolves to the fixed Web Framework Component
record with `riskLevel=LOW, recommendation=ALLOW`, identically for every
oracle and decoder behaviour — neither the registry nor the oracle is
consulted. -/
theorem C10_framework_substring_match (url : String) (ts : Nat)
    (pageDomain d : String)
    (oracle : String → String → Except Unit String)
    (jsonParse : String → Option OracleJson)
    (hparse : parseHostname url = some d)
    (hfp : isFirstParty url pageDomain = false)
    (hpat : jsIncludes url "chunk" = true ∨ jsIncludes url "runtime" = true ∨
      jsIncludes url "/react" = true ∨ jsIncludes url "/vue" = true ∨
      jsIncludes url "/webpack" = true) :
    analyzeScript ⟨url, ts⟩ pageDomain oracle jsonParse =
      Except.ok (frameworkRecord url d) ∧
    (frameworkRecord url d).scriptName = "Web Framework Component" ∧
    (frameworkRecord url d).riskLevel = RiskLevel.LOW ∧
    (frameworkRecord url d).recommendation = Recommendation.ALLOW := by
  have hkf : isKnownFramework url = true := by
    simp only [isKnownFramework, frameworkPatterns, List.any_cons, List.any_nil,
      Bool.or_eq_true]
    rcases hpat with h | h | h | h | h <;> simp [h]
  refine ⟨?_, rfl, rfl, rfl⟩
  simp only [analyzeScript, hparse, hfp, hkf, Bool.false_eq_true, if_false, if_true]

/-- Witness for `C10_framework_substring_match` on
`https://evil.example/runtime.js`. -/
theorem C10_framework_substring_match_witness :
    analyzeScript ⟨"https://evil.example/runtime.js", 0⟩ "shop.example.com"
        (fun _ _ => Except.error ()) (fun _ => none) =
      Except.ok (frameworkRecord "https://evil.example/runtime.js" "evil.example") ∧
    (frameworkRecord "https://evil.example/runtime.js" "evil.example").scriptName =
      "Web Framework Component" ∧
    (frameworkRecord "https://evil.example/runtime.js" "evil.example").riskLevel =
      RiskLevel.LOW ∧
    (frameworkRecord "https://evil.example/runtime.js" "evil.example").recommendation =
      Recommendation.ALLOW :=
  C10_framework_substring_match "https://evil.example/runtime.js" 0 "shop.example.com"
    "evil.example" (fun _ _ => Except.error ()) (fun _ => none)
    (by decide) (by decide) (Or.inr (Or.inl (by decide)))
